import Mathlib

/-!
Shallow embedding of the pet-adoption data core of rl0425/turi-repo:
the domain adapter (src/services/api/animal-adapter.ts), the registry
client (animal-api.ts), the React Query hooks (use-pets.ts) and the
query-client retry configuration.  Raw registry records come from JSON,
so every string field is modelled as `Option String` (`none` = the field
is absent / `undefined`); JavaScript operations that throw on `undefined`
are modelled in the `Except String` monad.
-/

deriving instance DecidableEq for Except

namespace Turi

/-! ## Domain enums (src/types/pet.ts, src/types/common.ts) -/

inductive PetSpecies
  | dog | cat | rabbit | bird | hamster | other
  deriving DecidableEq, Repr

inductive PetSize
  | extraSmall | small | medium | large | extraLarge
  deriving DecidableEq, Repr

inductive Gender
  | male | female | unknown
  deriving DecidableEq, Repr

inductive PetAgeGroup
  | puppy | young | adult | senior
  deriving DecidableEq, Repr

inductive AdoptionStatus
  | available | pending | adopted | unavailable
  deriving DecidableEq, Repr

inductive HealthStatus
  | excellent | good | fair | needsAttention | specialCare
  deriving DecidableEq, Repr

structure AgeInfo where
  years : Nat
  months : Nat
  ageGroup : PetAgeGroup
  deriving DecidableEq, Repr

structure ImageInfo where
  id : String
  url : String
  alt : String
  width : Nat
  height : Nat
  isMain : Bool
  deriving DecidableEq, Repr

structure LocationInfo where
  address : Option String
  city : Option String
  deriving DecidableEq, Repr

structure ShelterRef where
  shelterId : Option String
  shelterName : Option String
  contactInfo : String
  deriving DecidableEq, Repr

structure GoodWith where
  children : Bool
  otherPets : Bool
  cats : Bool
  dogs : Bool
  deriving DecidableEq, Repr

/-- The internal `Pet` entity.  `weight` keeps the raw token matched by
the source's `/[\d.]+/` regex (the source applies `parseFloat` to it;
storing the token preserves all information the claims inspect). -/
structure Pet where
  id : String
  name : String
  species : PetSpecies
  breed : Option String
  age : AgeInfo
  gender : Gender
  size : PetSize
  weight : Option String
  color : List String
  personality : List String
  healthStatus : HealthStatus
  medicalRecords : List String
  adoptionStatus : AdoptionStatus
  location : LocationInfo
  shelterInfo : ShelterRef
  images : List ImageInfo
  videos : List String
  description : String
  specialNeeds : List String
  goodWith : GoodWith
  houseTrained : Bool
  spayedNeutered : Bool
  microchipped : Bool
  vaccinated : Bool
  createdAt : Option String
  updatedAt : Option String
  deriving DecidableEq, Repr

/-- A raw registry record as it reaches the adapter at runtime: every
field a JSON string that may be absent (`none` = `undefined`). -/
structure AbandonmentAnimalItem where
  desertionNo : Option String := none
  happenDt : Option String := none
  happenPlace : Option String := none
  kindFullNm : Option String := none
  upKindCd : Option String := none
  kindNm : Option String := none
  colorCd : Option String := none
  age : Option String := none
  weight : Option String := none
  noticeSdt : Option String := none
  popfile1 : Option String := none
  popfile2 : Option String := none
  processState : Option String := none
  sexCd : Option String := none
  neuterYn : Option String := none
  careRegNo : Option String := none
  careNm : Option String := none
  careTel : Option String := none
  officetel : Option String := none
  careAddr : Option String := none
  orgNm : Option String := none
  specialMark : Option String := none
  deriving DecidableEq, Repr

/-! ## JavaScript semantics helpers -/

/-- JS truthiness of a string-or-undefined value: `undefined` and the
empty string are falsy. -/
def jsTruthy : Option String → Bool
  | none => false
  | some s => s ≠ ""

/-- JS `a || b` on string-or-undefined values. -/
def jsOr (a b : Option String) : Option String :=
  if jsTruthy a then a else b

/-- JS `a || d` where the final fallback `d` is a string literal. -/
def jsOrStr (a : Option String) (d : String) : String :=
  (jsOr a (some d)).getD d

/-- JS `String.prototype.toLowerCase` (ASCII case only; the Korean
letters the adapter compares are unaffected by case mapping). -/
def jsToLower (s : String) : String :=
  String.mk (s.toList.map Char.toLower)

/-- Whether `sub` occurs at the start of `s`. -/
def occursAtStart : List Char → List Char → Bool
  | [], _ => true
  | _ :: _, [] => false
  | a :: as, b :: bs => a = b && occursAtStart as bs

/-- Whether `sub` occurs anywhere in `s`. -/
def occursIn (sub : List Char) : List Char → Bool
  | [] => occursAtStart sub []
  | c :: t => occursAtStart sub (c :: t) || occursIn sub t

/-- JS `String.prototype.includes`. -/
def jsIncludes (s sub : String) : Bool :=
  occursIn sub.toList s.toList

/-- JS `String.prototype.split` on a single-character class: cut the
character list at every separator character. -/
def jsSplitChars (isSep : Char → Bool) : List Char → List (List Char)
  | [] => [[]]
  | c :: t =>
    if isSep c then [] :: jsSplitChars isSep t
    else
      match jsSplitChars isSep t with
      | [] => [[c]]
      | h :: r => (c :: h) :: r

/-- JS `String.prototype.trim` (ASCII whitespace suffices here). -/
def jsTrim (s : String) : String :=
  String.mk
    (((s.toList.dropWhile Char.isWhitespace).reverse.dropWhile
      Char.isWhitespace).reverse)

/-- JS `s.slice(-3)`: the last three characters (the whole string when
it is shorter). -/
def jsSliceLast3 (s : String) : String :=
  s.drop (s.length - 3)

/-! ## Regex scanners used by `calculateAgeGroup` and `parseWeight`.
Each models one of the source's regex literals as a leftmost-match
scanner over the character list. -/

/-- Numeric value of a digit run (JS `parseInt` on a digit string). -/
def digitsToNat (ds : List Char) : Nat :=
  ds.foldl (fun n c => n * 10 + (c.toNat - 48)) 0

/-- Match exactly four digits at the current position (`\d{4}` inside a
longer pattern), returning their value and the rest. -/
def matchDigits4 : List Char → Option (Nat × List Char)
  | c1 :: c2 :: c3 :: c4 :: rest =>
    if c1.isDigit && c2.isDigit && c3.isDigit && c4.isDigit then
      some (digitsToNat [c1, c2, c3, c4], rest)
    else
      none
  | _ => none

/-- Consume a literal character sequence. -/
def matchLit : List Char → List Char → Option (List Char)
  | [], rest => some rest
  | _ :: _, [] => none
  | l :: ls, c :: cs => if c = l then matchLit ls cs else none

/-- Leftmost regex search: try the position matcher at every suffix,
first success wins (JS `String.prototype.match` semantics for the
deterministic patterns below). -/
def searchPos (m : List Char → Option Nat) : List Char → Option Nat
  | [] => m []
  | c :: t =>
    match m (c :: t) with
    | some y => some y
    | none => searchPos m t

/-- `/(\d{4})\([^)]*\)\(년생\)/` at the current position. -/
def matchBirthDetailAt (s : List Char) : Option Nat :=
  match matchDigits4 s with
  | none => none
  | some (y, r1) =>
    match r1 with
    | '(' :: r2 =>
      match r2.dropWhile (fun c => c ≠ ')') with
      | ')' :: r4 =>
        match matchLit "(년생)".toList r4 with
        | some _ => some y
        | none => none
      | _ => none
    | _ => none

/-- `/(\d{4})\(년생\)/` at the current position. -/
def matchBirthSimpleAt (s : List Char) : Option Nat :=
  match matchDigits4 s with
  | none => none
  | some (y, r1) =>
    match matchLit "(년생)".toList r1 with
    | some _ => some y
    | none => none

/-- `/(\d+)<lit>/` at the current position: a maximal digit run
immediately followed by the literal (used for `일미만` and `개월`). -/
def matchNumBeforeLitAt (lit : List Char) (s : List Char) : Option Nat :=
  let run := s.takeWhile Char.isDigit
  let rest := s.dropWhile Char.isDigit
  if run.isEmpty then none
  else
    match matchLit lit rest with
    | some _ => some (digitsToNat run)
    | none => none

/-- `/(\d+)/` at the current position: a maximal digit run. -/
def matchFirstNumberAt (s : List Char) : Option Nat :=
  let run := s.takeWhile Char.isDigit
  if run.isEmpty then none else some (digitsToNat run)

/-- Whether the whole string is `/^\d{4}$/`. -/
def isFourDigitString (s : String) : Bool :=
  s.length = 4 && s.toList.all Char.isDigit

/-- First `/[\d.]+/` token of a string (used by `parseWeight`). -/
def firstFloatToken : List Char → Option (List Char)
  | [] => none
  | c :: t =>
    if c.isDigit || c = '.' then
      some ((c :: t).takeWhile (fun ch => ch.isDigit || ch = '.'))
    else
      firstFloatToken t

/-! ## Domain adapter (src/services/api/animal-adapter.ts)

Each source helper that can throw a `TypeError` on an `undefined` field
is split into a total core over `String` plus an `Option`-matching
wrapper returning `Except String`; the throw happens exactly where the
source calls a string method on the possibly-undefined value. -/

/-- `ANIMAL_TYPE_CODES` from animal-api.ts. -/
def animalTypeCodeDog : String := "417000"

def animalTypeCodeCat : String := "422000"

def animalTypeCodeOther : String := "429900"

/-- `mapSpeciesFromUpkind`: JS `switch` compares the (possibly
undefined) code against the two known codes and never throws. -/
def mapSpeciesFromUpkind (upkind : Option String) : PetSpecies :=
  if upkind = some animalTypeCodeDog then .dog
  else if upkind = some animalTypeCodeCat then .cat
  else .other

/-- Keyword cascade of `estimateSizeFromBreed` after `toLowerCase`. -/
def estimateSizeCore (kindCd : String) : PetSize :=
  let breed := jsToLower kindCd
  if jsIncludes breed "치와와" || jsIncludes breed "요크셔" ||
      jsIncludes breed "말티즈" || jsIncludes breed "포메라니안" ||
      jsIncludes breed "파피용" then
    .extraSmall
  else if jsIncludes breed "시츄" || jsIncludes breed "비숑" ||
      jsIncludes breed "코커" || jsIncludes breed "닥스훈트" ||
      jsIncludes breed "푸들" || jsIncludes breed "웰시코기" then
    .small
  else if jsIncludes breed "골든" || jsIncludes breed "래브라도" ||
      jsIncludes breed "셰퍼드" || jsIncludes breed "허스키" ||
      jsIncludes breed "도베르만" || jsIncludes breed "로트와일러" then
    .large
  else if jsIncludes breed "세인트" || jsIncludes breed "그레이트" ||
      jsIncludes breed "마스티프" || jsIncludes breed "뉴펀들랜드" ||
      jsIncludes breed "아이리시" then
    .extraLarge
  else if jsIncludes breed "고양이" || jsIncludes breed "코리안숏헤어" ||
      jsIncludes breed "페르시안" || jsIncludes breed "러시안블루" ||
      jsIncludes breed "브리티시숏헤어" then
    .small
  else
    .medium

/-- `estimateSizeFromBreed`: `kindCd.toLowerCase()` throws when the
argument is `undefined`. -/
def estimateSizeFromBreed (kindCd : Option String) : Except String PetSize :=
  match kindCd with
  | none => .error "TypeError: cannot read toLowerCase of undefined"
  | some k => .ok (estimateSizeCore k)

/-- `switch` body of `mapGenderFromSexCd` after `toLowerCase`. -/
def mapGenderCore (sexCd : String) : Gender :=
  match jsToLower sexCd with
  | "m" => .male
  | "f" => .female
  | _ => .unknown

/-- `mapGenderFromSexCd`: `sexCd.toLowerCase()` throws on `undefined`. -/
def mapGenderFromSexCd (sexCd : Option String) : Except String Gender :=
  match sexCd with
  | none => .error "TypeError: cannot read toLowerCase of undefined"
  | some s => .ok (mapGenderCore s)

/-- Final age-group classification of `calculateAgeGroup` (lines
173-185 of animal-adapter.ts). -/
def ageGroupOf (years months : Nat) : PetAgeGroup :=
  if years = 0 ∧ months < 6 then .puppy
  else if years < 2 then .young
  else if years < 7 then .adult
  else .senior

/-- Parsing cascade of `calculateAgeGroup`: computes `(years, months)`
from the free-text age field and the current year.  Pattern precedence
follows the source's if/else chain. -/
def calculateAgeYearsMonths (age : String) (currentYear : Nat) : Nat × Nat :=
  let cs := age.toList
  match searchPos matchBirthDetailAt cs with
  | some birthYear =>
    let years := currentYear - birthYear
    let months :=
      match searchPos (matchNumBeforeLitAt "일미만".toList) cs with
      | some days => if years = 0 then days / 30 else 0
      | none => 0
    (years, months)
  | none =>
    match searchPos matchBirthSimpleAt cs with
    | some birthYear => (currentYear - birthYear, 0)
    | none =>
      if isFourDigitString age then
        (currentYear - digitsToNat cs, 0)
      else if jsIncludes age "개월" then
        match searchPos (matchNumBeforeLitAt "개월".toList) cs with
        | some m => (m / 12, m % 12)
        | none => (0, 0)
      else if (jsIncludes age "살" || jsIncludes age "년") &&
          !jsIncludes age "년생" then
        match searchPos matchFirstNumberAt cs with
        | some n => (n, 0)
        | none => (0, 0)
      else
        (0, 0)

/-- Total body of `calculateAgeGroup` on a present age string. -/
def calculateAgeGroupCore (age : String) (currentYear : Nat) : AgeInfo :=
  let p := calculateAgeYearsMonths age currentYear
  ⟨p.1, p.2, ageGroupOf p.1 p.2⟩

/-- `calculateAgeGroup`: `age.match(...)` throws when `age` is
`undefined`; otherwise every branch returns normally.  The source reads
the current year from the clock (`new Date().getFullYear()`); it is an
explicit parameter here. -/
def calculateAgeGroup (age : Option String) (currentYear : Nat) :
    Except String AgeInfo :=
  match age with
  | none => .error "TypeError: cannot read match of undefined"
  | some a => .ok (calculateAgeGroupCore a currentYear)

/-- Keyword cascade of `mapAdoptionStatus` after `toLowerCase`. -/
def mapAdoptionStatusCore (processState : String) : AdoptionStatus :=
  let state := jsToLower processState
  if jsIncludes state "보호중" || jsIncludes state "공고중" then .available
  else if jsIncludes state "입양" || jsIncludes state "종료" then .adopted
  else if jsIncludes state "안락사" || jsIncludes state "자연사" then .unavailable
  else .available

/-- `mapAdoptionStatus`: `processState.toLowerCase()` throws on
`undefined`. -/
def mapAdoptionStatus (processState : Option String) :
    Except String AdoptionStatus :=
  match processState with
  | none => .error "TypeError: cannot read toLowerCase of undefined"
  | some p => .ok (mapAdoptionStatusCore p)

/-- `parseWeight`: falsy input yields `undefined`; otherwise the first
`/[\d.]+/` token (the source applies `parseFloat` to it). -/
def parseWeight (weight : Option String) : Option String :=
  match weight with
  | none => none
  | some w =>
    if w = "" then none
    else
      match firstFloatToken w.toList with
      | some tok => some (String.mk tok)
      | none => none

/-- `parseColors`: falsy input yields the `"미상"` placeholder;
otherwise split on `&`, `+`, `,`, trim, and drop empty segments. -/
def parseColors (colorCd : Option String) : List String :=
  match colorCd with
  | none => ["미상"]
  | some c =>
    if c = "" then ["미상"]
    else
      ((((jsSplitChars (fun ch => ch = '&' || ch = '+' || ch = ',')
        c.toList).map String.mk).map jsTrim).filter fun s => s.length > 0)

/-- `createImageInfo`: pushes an entry for each truthy source field; the
second only when strictly different (`!==`) from the first. -/
def createImageInfo (popfile1 popfile2 : Option String) : List ImageInfo :=
  let images : List ImageInfo := []
  let images :=
    if jsTruthy popfile1 then
      images ++ [⟨"1", popfile1.getD "", "반려동물 사진 1", 400, 300, true⟩]
    else images
  let images :=
    if jsTruthy popfile2 ∧ popfile2 ≠ popfile1 then
      images ++ [⟨"2", popfile2.getD "", "반려동물 사진 2", 400, 300, false⟩]
    else images
  images

/-- `animalDataUtils.formatDate` (animal-api.ts): falsy or non-8-length
input is returned unchanged, else `YYYYMMDD` becomes `YYYY.MM.DD`. -/
def formatDate (dateStr : Option String) : Option String :=
  match dateStr with
  | none => none
  | some s =>
    if s = "" ∨ s.length ≠ 8 then some s
    else some (s.take 4 ++ "." ++ (s.drop 4).take 2 ++ "." ++ (s.drop 6).take 2)

/-- `animal.kindFullNm?.split("]")[1]?.trim()` (optional chaining). -/
def breedFromKindFullNm (kindFullNm : Option String) : Option String :=
  kindFullNm.bind fun s =>
    (((jsSplitChars (fun ch => ch = ']') s.toList).map String.mk).get? 1).map
      jsTrim

/-- `animal.desertionNo.slice(-3)`: throws when `desertionNo` is
`undefined` (no optional chaining in the source at this point). -/
def desertionNoLast3 (desertionNo : Option String) : Except String String :=
  match desertionNo with
  | none => .error "TypeError: cannot read slice of undefined"
  | some s => .ok (jsSliceLast3 s)

/-- `convertAbandonmentAnimalToPet` (animal-adapter.ts lines 266-333),
with the clock year as an explicit parameter (the source reads it inside
`calculateAgeGroup`).  Locals are bound in source order, so the first
throwing sub-mapping decides the error. -/
def convertAbandonmentAnimalToPet (animal : AbandonmentAnimalItem)
    (index : Nat) (currentYear : Nat) : Except String Pet := do
  let species := mapSpeciesFromUpkind animal.upKindCd
  let size ← estimateSizeFromBreed (jsOr animal.kindNm animal.kindFullNm)
  let gender ← mapGenderFromSexCd animal.sexCd
  let ageInfo ← calculateAgeGroup animal.age currentYear
  let adoptionStatus ← mapAdoptionStatus animal.processState
  let weight := parseWeight animal.weight
  let colors := parseColors animal.colorCd
  let images := createImageInfo animal.popfile1 animal.popfile2
  let breedName :=
    jsOrStr (jsOr (breedFromKindFullNm animal.kindFullNm) animal.kindNm)
      "반려동물"
  let last3 ← desertionNoLast3 animal.desertionNo
  let petName := breedName ++ " " ++ last3
  pure
    { id := jsOrStr animal.desertionNo ("animal-" ++ toString index)
      name := petName
      species := species
      breed := none
      age := ageInfo
      gender := gender
      size := size
      weight := weight
      color := colors
      personality := []
      healthStatus := .good
      medicalRecords := []
      adoptionStatus := adoptionStatus
      location :=
        { address := jsOr animal.happenPlace animal.careAddr
          city := animal.orgNm }
      shelterInfo :=
        { shelterId := jsOr animal.careRegNo animal.careNm
          shelterName := animal.careNm
          contactInfo := jsOrStr (jsOr animal.careTel animal.officetel) "" }
      images := images
      videos := []
      description := jsOrStr animal.specialMark "특이사항 없음"
      specialNeeds :=
        if jsTruthy animal.specialMark then [animal.specialMark.getD ""] else []
      goodWith := ⟨true, true, true, true⟩
      houseTrained := true
      spayedNeutered := decide (animal.neuterYn = some "Y")
      microchipped := false
      vaccinated := true
      createdAt := formatDate animal.happenDt
      updatedAt := formatDate animal.noticeSdt }

/-- `convertAbandonmentAnimalsToPets`: indexed map of the converter. -/
def convertAbandonmentAnimalsToPets (animals : List AbandonmentAnimalItem)
    (currentYear : Nat) : Except String (List Pet) :=
  animals.enum.mapM fun p => convertAbandonmentAnimalToPet p.2 p.1 currentYear

/-! ## Search-result adapter (`searchResultAdapter.convertSearchResults`) -/

structure SearchResultsPage where
  items : List Pet
  totalCount : Nat
  currentPage : Nat
  totalPages : Nat
  hasNext : Bool
  hasPrev : Bool
  deriving DecidableEq, Repr

/-- `Math.ceil(totalCount / itemsPerPage)` for a positive divisor (the
source never calls it with 0; JS would give `Infinity`/`NaN` there). -/
def jsCeilDiv (totalCount itemsPerPage : Nat) : Nat :=
  (totalCount + itemsPerPage - 1) / itemsPerPage

/-- `searchResultAdapter.convertSearchResults` (animal-adapter.ts lines
385-401). -/
def convertSearchResults (animals : List AbandonmentAnimalItem)
    (totalCount currentPage itemsPerPage currentYear : Nat) :
    Except String SearchResultsPage := do
  let pets ← convertAbandonmentAnimalsToPets animals currentYear
  pure
    { items := pets
      totalCount := totalCount
      currentPage := currentPage
      totalPages := jsCeilDiv totalCount itemsPerPage
      hasNext := decide (currentPage * itemsPerPage < totalCount)
      hasPrev := decide (currentPage > 1) }

/-! ## Registry client (animal-api.ts) and query hooks (use-pets.ts).
A network exchange is represented by the envelope the browser observes:
HTTP success flag plus the proxy's `{success, error, data}` body. -/

structure ApiEnvelope (T : Type) where
  httpOk : Bool
  success : Bool
  errorMessage : Option String
  data : T
  deriving DecidableEq, Repr

structure AnimalsPage where
  animals : List AbandonmentAnimalItem
  totalCount : Nat
  pageNo : Nat
  numOfRows : Nat
  deriving DecidableEq, Repr

/-- `fetchFromInternalAPI`: throws on non-OK HTTP status, then throws on
a non-success envelope (`!data.success`), else returns the payload. -/
def fetchFromInternalAPI {T : Type} (env : ApiEnvelope T) : Except String T :=
  if env.httpOk = false then .error "HTTP Error"
  else if env.success = false then
    .error (env.errorMessage.getD "API 요청에 실패했습니다.")
  else .ok env.data

/-- `getAbandonmentAnimals` applied to an observed exchange. -/
def getAbandonmentAnimals (env : ApiEnvelope AnimalsPage) :
    Except String AnimalsPage :=
  fetchFromInternalAPI env

/-- Request parameters of `getAbandonmentAnimals` after merging caller
parameters over the defaults `{numOfRows: 20, pageNo: 1, upkind: DOG,
state: notice}`. -/
structure AnimalListRequest where
  numOfRows : Nat
  pageNo : Nat
  upkind : String
  state : String
  deriving DecidableEq, Repr

def getAbandonmentAnimalsDefaults : AnimalListRequest :=
  ⟨20, 1, animalTypeCodeDog, "notice"⟩

/-- The request `getAnimalDetail` issues: the defaults overridden with
`{numOfRows: 1, pageNo: 1}`. -/
def getAnimalDetailRequest : AnimalListRequest :=
  { getAbandonmentAnimalsDefaults with numOfRows := 1, pageNo := 1 }

/-- `getAnimalDetail` (animal-api.ts lines 182-202): fetch one page,
look the argument up by `desertionNo`, `null` on error or no match. -/
def getAnimalDetail (desertionNo : String) (env : ApiEnvelope AnimalsPage) :
    Option AbandonmentAnimalItem :=
  match getAbandonmentAnimals env with
  | .error _ => none
  | .ok page =>
    page.animals.find? fun item => decide (item.desertionNo = some desertionNo)

/-- Query function of `usePetDetail` (use-pets.ts lines 109-125): the
`try/catch` turns any converter throw into a `null` result, and
`getAnimalDetail` already returns `null` on fetch errors. -/
def usePetDetailQueryFn (id : String) (env : ApiEnvelope AnimalsPage)
    (currentYear : Nat) : Except String (Option Pet) :=
  match getAnimalDetail id env with
  | none => .ok none
  | some animal =>
    match convertAbandonmentAnimalToPet animal 0 currentYear with
    | .ok pet => .ok (some pet)
    | .error _ => .ok none

/-- Query function of `useFeaturedPets`: no `catch`, so fetch and
converter errors propagate to the query's error state. -/
def useFeaturedPetsQueryFn (env : ApiEnvelope AnimalsPage)
    (currentYear : Nat) : Except String (List Pet) := do
  let page ← getAbandonmentAnimals env
  convertAbandonmentAnimalsToPets page.animals currentYear

/-- One page produced by `useAllPets`' query function. -/
structure AllPetsPage where
  pets : List Pet
  nextPage : Nat
  hasMore : Bool
  deriving DecidableEq, Repr

/-- Query function of `useAllPets` (use-pets.ts lines 130-149):
`hasMore` is `response.animals.length === 20`. -/
def useAllPetsQueryFn (env : ApiEnvelope AnimalsPage)
    (pageParam currentYear : Nat) : Except String AllPetsPage := do
  let page ← getAbandonmentAnimals env
  let pets ← convertAbandonmentAnimalsToPets page.animals currentYear
  pure ⟨pets, pageParam + 1, decide (page.animals.length = 20)⟩

/-- `getNextPageParam` of `useSearchPets` (use-pets.ts lines 96-100):
`currentPage || 1`, `totalPages = Math.ceil(totalCount / 20)`, next page
only while `currentPage < totalPages`. -/
def searchGetNextPageParam (lastPage : SearchResultsPage) : Option Nat :=
  let currentPage := if lastPage.currentPage = 0 then 1 else lastPage.currentPage
  let totalPages := jsCeilDiv lastPage.totalCount 20
  if currentPage < totalPages then some (currentPage + 1) else none

/-- `getNextPageParam` of `useAllPets` (use-pets.ts lines 146-147). -/
def allPetsGetNextPageParam (lastPage : AllPetsPage) : Option Nat :=
  if lastPage.hasMore then some lastPage.nextPage else none

/-! ## Retry policy (query-client.ts, utils/constants/api.ts) -/

def RETRY_MAX_RETRIES : Nat := 3

def RETRY_BASE_DELAY : Nat := 1000

def RETRY_MAX_DELAY : Nat := 30000

def RETRY_BACKOFF_MULTIPLIER : Nat := 2

/-- `defaultOptions.queries.retry`: no retry for status 401/403/404
(`error?.status`, hence `Option Nat`), else while the failure count is
below `RETRY_SETTINGS.MAX_RETRIES`. -/
def queriesRetry (failureCount : Nat) (status : Option Nat) : Bool :=
  if status = some 401 ∨ status = some 403 ∨ status = some 404 then false
  else decide (failureCount < RETRY_MAX_RETRIES)

/-- `defaultOptions.queries.retryDelay`:
`Math.min(BASE_DELAY * BACKOFF_MULTIPLIER ** attemptIndex, MAX_DELAY)`. -/
def queriesRetryDelay (attemptIndex : Nat) : Nat :=
  min (RETRY_BASE_DELAY * RETRY_BACKOFF_MULTIPLIER ^ attemptIndex)
    RETRY_MAX_DELAY

/-! ## Per-key response application discipline of the Query/Cache Layer.

Modelled from the spec: the repository delegates server-state caching to
its data-fetching library, whose request bookkeeping is not part of the
repository's sources.  Per the spec's ordering guarantee, each new
request for a key supersedes the previous one, and a response is applied
only when it belongs to the latest request for that key. -/

structure QueryCacheState (V : Type) where
  issued : Nat
  cache : Option (Nat × V)
  deriving DecidableEq, Repr

inductive QueryEvent (V : Type)
  | issue
  | resolve (id : Nat) (value : V)
  deriving DecidableEq, Repr

/-- Modelled from the spec: issuing a request allocates the next request
id and makes it the latest for the key; a response is applied only if
its request is still the latest, otherwise it is discarded. -/
def queryStep {V : Type} (s : QueryCacheState V) : QueryEvent V → QueryCacheState V
  | .issue => { s with issued := s.issued + 1 }
  | .resolve id v => if id = s.issued then { s with cache := some (id, v) } else s

def queryRun {V : Type} (s : QueryCacheState V) (events : List (QueryEvent V)) :
    QueryCacheState V :=
  events.foldl queryStep s

def queryInit {V : Type} : QueryCacheState V :=
  ⟨0, none⟩

/-! ## Sample records used by concrete-input theorems -/

/-- A raw record with every field the adapter touches present, shaped
like a real registry item. -/
def sampleRecordFull : AbandonmentAnimalItem :=
  { desertionNo := some "448528202500936", happenDt := some "20250101",
    happenPlace := some "서울특별시 강남구", kindFullNm := some "[개] 믹스견",
    upKindCd := some "417000", kindNm := some "믹스견", colorCd := some "흰색",
    age := some "2020(년생)", weight := some "5(Kg)", noticeSdt := some "20250102",
    popfile1 := some "http://img1", popfile2 := some "http://img2",
    processState := some "보호중", sexCd := some "M", neuterYn := some "Y",
    careRegNo := some "reg1", careNm := some "보호소", careTel := some "02-123",
    officetel := none, careAddr := some "주소", orgNm := some "서울",
    specialMark := some "온순함" }

/-- The same record with a months-shaped age string, whose age parse
does not consult the current year. -/
def sampleRecordMonthsAge : AbandonmentAnimalItem :=
  { sampleRecordFull with age := some "6개월" }

/-! ## Shared helper lemmas -/

theorem jsTruthy_eq_true_iff (o : Option String) :
    jsTruthy o = true ↔ ∃ s, o = some s ∧ s ≠ "" := by
  cases o with
  | none => simp [jsTruthy]
  | some s => simp [jsTruthy]

theorem except_ok_bind {ε α β : Type} (a : α) (f : α → Except ε β) :
    (Except.ok a : Except ε α) >>= f = f a :=
  rfl

theorem except_error_bind {ε α β : Type} (e : ε) (f : α → Except ε β) :
    (Except.error e : Except ε α) >>= f = Except.error e :=
  rfl

theorem except_pure_eq {ε α : Type} (a : α) :
    (pure a : Except ε α) = Except.ok a :=
  rfl

theorem fetchFromInternalAPI_eq_ok {T : Type} (env : ApiEnvelope T) (x : T) :
    fetchFromInternalAPI env = .ok x → x = env.data := by
  unfold fetchFromInternalAPI
  split
  · intro h; exact absurd h (by simp)
  · split
    · intro h; exact absurd h (by simp)
    · intro h; injection h with h; exact h.symm

theorem fetchFromInternalAPI_eq_error {T : Type} (env : ApiEnvelope T)
    (h : env.httpOk = false ∨ env.success = false) :
    ∃ msg, fetchFromInternalAPI env = .error msg := by
  rcases h with h | h
  · exact ⟨"HTTP Error", by simp [fetchFromInternalAPI, h]⟩
  · by_cases hh : env.httpOk = false
    · exact ⟨"HTTP Error", by simp [fetchFromInternalAPI, hh]⟩
    · exact ⟨env.errorMessage.getD "API 요청에 실패했습니다.",
        by simp [fetchFromInternalAPI, hh, h]⟩

/-! ## Claim theorems -/

/-- Claim C2: out-of-order completion safety for a single cache key.
Issue request A (id 1), then request B (id 2), resolve B first, then A:
the cache retains B's result, and in general a response whose request is
no longer the latest never changes the cache. -/
theorem queryCache_out_of_order_safety :
    ∀ {V : Type} (vA vB : V) (s : QueryCacheState V) (id : Nat) (v : V),
      (queryRun queryInit
        [QueryEvent.issue, QueryEvent.issue, QueryEvent.resolve 2 vB,
          QueryEvent.resolve 1 vA]).cache = some (2, vB) ∧
      (id ≠ s.issued → queryStep s (QueryEvent.resolve id v) = s) := by
  intro V vA vB s id v
  constructor
  · rfl
  · intro h
    simp [queryStep, h]

/-- Witness for C2: the scenario with concrete values, and a concrete
superseded response (id 1 while request 2 is the latest) being
discarded. -/
theorem queryCache_out_of_order_safety_witness :
    (queryRun (queryInit (V := Nat))
      [QueryEvent.issue, QueryEvent.issue, QueryEvent.resolve 2 20,
        QueryEvent.resolve 1 10]).cache = some (2, 20) ∧
    queryStep (⟨2, some (2, 20)⟩ : QueryCacheState Nat)
      (QueryEvent.resolve 1 10) = ⟨2, some (2, 20)⟩ :=
  ⟨(queryCache_out_of_order_safety 10 20 ⟨2, some (2, 20)⟩ 1 10).1,
    (queryCache_out_of_order_safety 10 20 (⟨2, some (2, 20)⟩ : QueryCacheState Nat)
      1 10).2 (by decide)⟩

/-- Claim C4: the age-group classification is total and deterministic:
for all years, months it yields exactly one of puppy/young/adult/senior,
puppy iff years = 0 and months < 6, else young iff years < 2, else adult
iff years < 7, else senior; and `calculateAgeGroup`'s output carries
exactly this classification of its computed years and months. -/
theorem ageGroup_classification_characterization :
    ∀ years months : Nat,
      (ageGroupOf years months = .puppy ∨ ageGroupOf years months = .young ∨
        ageGroupOf years months = .adult ∨ ageGroupOf years months = .senior) ∧
      (ageGroupOf years months = .puppy ↔ years = 0 ∧ months < 6) ∧
      (ageGroupOf years months = .young ↔
        ¬(years = 0 ∧ months < 6) ∧ years < 2) ∧
      (ageGroupOf years months = .adult ↔
        ¬(years = 0 ∧ months < 6) ∧ ¬years < 2 ∧ years < 7) ∧
      (ageGroupOf years months = .senior ↔
        ¬(years = 0 ∧ months < 6) ∧ ¬years < 2 ∧ ¬years < 7) ∧
      (∀ (a : String) (currentYear : Nat) (info : AgeInfo),
        calculateAgeGroup (some a) currentYear = .ok info →
          info.ageGroup = ageGroupOf info.years info.months) := by
  intro y m
  have hlink : ∀ (a : String) (currentYear : Nat) (info : AgeInfo),
      calculateAgeGroup (some a) currentYear = .ok info →
        info.ageGroup = ageGroupOf info.years info.months := by
    intro a cy info h
    simp only [calculateAgeGroup, Except.ok.injEq] at h
    subst h
    rfl
  refine ⟨?_, ?_, ?_, ?_, ?_, hlink⟩ <;>
    by_cases h1 : y = 0 ∧ m < 6 <;> by_cases h2 : y < 2 <;>
      by_cases h3 : y < 7 <;> simp [ageGroupOf, h1, h2, h3]

/-- Witness for C4: the classification and the `calculateAgeGroup` link
at concrete inputs. -/
theorem ageGroup_classification_witness :
    ageGroupOf 0 3 = .puppy ∧
    (⟨4, 0, PetAgeGroup.adult⟩ : AgeInfo).ageGroup = ageGroupOf 4 0 :=
  ⟨(ageGroup_classification_characterization 0 3).2.1.mpr (by decide),
    (ageGroup_classification_characterization 0 0).2.2.2.2.2 "2020(년생)" 2024
      ⟨4, 0, PetAgeGroup.adult⟩ (by decide)⟩

/-- Claim C6: the query retry predicate refuses 401/403/404 regardless
of the failure count, otherwise retries exactly while the failure count
is below 3; the retry delay for attempt n is min(1000·2^n, 30000),
nondecreasing in n and capped at 30000. -/
theorem retryPolicy_characterization :
    ∀ (failureCount : Nat) (status : Option Nat),
      ((status = some 401 ∨ status = some 403 ∨ status = some 404) →
        queriesRetry failureCount status = false) ∧
      (¬(status = some 401 ∨ status = some 403 ∨ status = some 404) →
        (queriesRetry failureCount status = true ↔ failureCount < 3)) ∧
      queriesRetryDelay failureCount = min (1000 * 2 ^ failureCount) 30000 ∧
      (∀ m, failureCount ≤ m →
        queriesRetryDelay failureCount ≤ queriesRetryDelay m) ∧
      queriesRetryDelay failureCount ≤ 30000 := by
  intro n s
  refine ⟨?_, ?_, rfl, ?_, ?_⟩
  · intro h
    simp [queriesRetry, h]
  · intro h
    simp [queriesRetry, h, RETRY_MAX_RETRIES]
  · intro m hm
    unfold queriesRetryDelay
    exact min_le_min
      (Nat.mul_le_mul_left _ (Nat.pow_le_pow_right (by decide) hm)) le_rfl
  · exact min_le_right _ _

/-- Witness for C6: concrete retry decisions and delays. -/
theorem retryPolicy_witness :
    queriesRetry 0 (some 401) = false ∧
    (queriesRetry 1 none = true) ∧
    queriesRetryDelay 2 ≤ queriesRetryDelay 5 :=
  ⟨(retryPolicy_characterization 0 (some 401)).1 (Or.inl rfl),
    ((retryPolicy_characterization 1 none).2.1 (by simp)).mpr (by decide),
    (retryPolicy_characterization 2 none).2.2.2.1 5 (by decide)⟩

/-- Claim C7: pagination terminates.  Search path: the `hasNext` flag of
`convertSearchResults` is false exactly when currentPage · itemsPerPage
has reached totalCount, and `useSearchPets`' next-page computation (page
size 20) yields no next page once currentPage · 20 has reached
totalCount.  Full-listing path: a fetched page with fewer than 20 items
yields no next page. -/
theorem pagination_termination :
    (∀ (animals : List AbandonmentAnimalItem)
      (totalCount currentPage itemsPerPage currentYear : Nat)
      (r : SearchResultsPage),
      convertSearchResults animals totalCount currentPage itemsPerPage
          currentYear = .ok r →
        (r.hasNext = false ↔ totalCount ≤ currentPage * itemsPerPage)) ∧
    (∀ lastPage : SearchResultsPage,
      lastPage.totalCount ≤ lastPage.currentPage * 20 →
        searchGetNextPageParam lastPage = none) ∧
    (∀ (page : AnimalsPage) (pageParam currentYear : Nat) (lp : AllPetsPage),
      useAllPetsQueryFn ⟨true, true, none, page⟩ pageParam currentYear =
          .ok lp →
        page.animals.length < 20 → allPetsGetNextPageParam lp = none) := by
  refine ⟨?_, ?_, ?_⟩
  · intro animals t c ipp y r h
    cases hc : convertAbandonmentAnimalsToPets animals y with
    | error e =>
      rw [convertSearchResults, hc, except_error_bind] at h
      exact absurd h (by simp)
    | ok pets =>
      rw [convertSearchResults, hc, except_ok_bind] at h
      simp only [except_pure_eq, Except.ok.injEq] at h
      subst h
      simp only [decide_eq_false_iff_not, Nat.not_lt]
  · intro lp h
    by_cases h0 : lp.currentPage = 0 <;>
      simp only [searchGetNextPageParam, jsCeilDiv, h0, if_true, if_false,
        ite_eq_right_iff, reduceCtorEq, imp_false, Nat.not_lt] <;>
      omega
  · intro page pp y lp h hlen
    rw [useAllPetsQueryFn] at h
    simp only [getAbandonmentAnimals, fetchFromInternalAPI,
      Bool.true_eq_false, if_false, except_ok_bind] at h
    cases hc : convertAbandonmentAnimalsToPets page.animals y with
    | error e =>
      rw [hc, except_error_bind] at h
      exact absurd h (by simp)
    | ok pets =>
      rw [hc, except_ok_bind] at h
      simp only [except_pure_eq, Except.ok.injEq] at h
      subst h
      simp [allPetsGetNextPageParam, Nat.ne_of_lt hlen]

/-- Witness for C7: concrete pages at the boundary on all three
paths. -/
theorem pagination_termination_witness :
    (⟨[], 0, 1, 0, false, false⟩ : SearchResultsPage).hasNext = false ∧
    searchGetNextPageParam ⟨[], 40, 2, 2, false, true⟩ = none ∧
    allPetsGetNextPageParam ⟨[], 2, false⟩ = none :=
  ⟨(pagination_termination.1 [] 0 1 20 2024 ⟨[], 0, 1, 0, false, false⟩
      (by decide)).mpr (by decide),
    pagination_termination.2.1 ⟨[], 40, 2, 2, false, true⟩ (by decide),
    pagination_termination.2.2 ⟨[], 0, 1, 1⟩ 1 2024 ⟨[], 2, false⟩ (by decide)
      (by decide)⟩

/-- Claim C10: `getAnimalDetail` requests page 1 with page size 1; on a
fetch error it returns null; a returned item always has the requested
`desertionNo` and comes from the fetched page; and when the fetched page
holds at most one item (the requested size), only that first listing
item can ever be returned. -/
theorem getAnimalDetail_first_item_only :
    getAnimalDetailRequest.numOfRows = 1 ∧
    getAnimalDetailRequest.pageNo = 1 ∧
    (∀ (d : String) (env : ApiEnvelope AnimalsPage),
      (env.httpOk = false ∨ env.success = false) →
        getAnimalDetail d env = none) ∧
    (∀ (d : String) (env : ApiEnvelope AnimalsPage)
      (a : AbandonmentAnimalItem),
      getAnimalDetail d env = some a →
        a.desertionNo = some d ∧ a ∈ env.data.animals) ∧
    (∀ (d : String) (env : ApiEnvelope AnimalsPage)
      (a : AbandonmentAnimalItem),
      env.data.animals.length ≤ 1 → getAnimalDetail d env = some a →
        env.data.animals.head? = some a) := by
  refine ⟨rfl, rfl, ?_, ?_, ?_⟩
  · intro d env h
    obtain ⟨msg, hmsg⟩ := fetchFromInternalAPI_eq_error env h
    simp [getAnimalDetail, getAbandonmentAnimals, hmsg]
  · intro d env a h
    unfold getAnimalDetail getAbandonmentAnimals at h
    cases hf : fetchFromInternalAPI env with
    | error e => rw [hf] at h; exact absurd h (by simp)
    | ok page =>
      rw [hf] at h
      have hpage := fetchFromInternalAPI_eq_ok env page hf
      subst hpage
      refine ⟨?_, List.mem_of_find?_eq_some h⟩
      have := List.find?_some h
      simpa using this
  · intro d env a hlen h
    unfold getAnimalDetail getAbandonmentAnimals at h
    cases hf : fetchFromInternalAPI env with
    | error e => rw [hf] at h; exact absurd h (by simp)
    | ok page =>
      rw [hf] at h
      have hpage := fetchFromInternalAPI_eq_ok env page hf
      subst hpage
      have hmem := List.mem_of_find?_eq_some h
      cases hanimals : env.data.animals with
      | nil => rw [hanimals] at hmem; simp at hmem
      | cons x xs =>
        rw [hanimals] at hmem hlen
        simp only [List.length_cons] at hlen
        have hxs : xs = [] := List.eq_nil_of_length_eq_zero (by omega)
        subst hxs
        simp at hmem
        simp [hmem]

/-- Witness for C10: the single fetched item is returned iff its
desertion number matches. -/
theorem getAnimalDetail_first_item_only_witness :
    getAnimalDetail "448528202500936"
      ⟨true, false, some "ERR", ⟨[sampleRecordFull], 1, 1, 1⟩⟩ = none ∧
    sampleRecordFull.desertionNo = some "448528202500936" ∧
    (⟨[sampleRecordFull], 1, 1, 1⟩ : AnimalsPage).animals.head? =
      some sampleRecordFull :=
  ⟨getAnimalDetail_first_item_only.2.2.1 "448528202500936"
      ⟨true, false, some "ERR", ⟨[sampleRecordFull], 1, 1, 1⟩⟩
      (Or.inr rfl),
    (getAnimalDetail_first_item_only.2.2.2.1 "448528202500936"
      ⟨true, true, none, ⟨[sampleRecordFull], 1, 1, 1⟩⟩ sampleRecordFull
      (by decide)).1,
    getAnimalDetail_first_item_only.2.2.2.2 "448528202500936"
      ⟨true, true, none, ⟨[sampleRecordFull], 1, 1, 1⟩⟩ sampleRecordFull
      (by decide) (by decide)⟩

/-- Claim C1 counterexample: a fully populated record with only
`desertionNo` absent makes `convertAbandonmentAnimalToPet` throw
(the unguarded `animal.desertionNo.slice(-3)`), refuting totality over
records with missing fields. -/
theorem convert_throws_on_absent_desertionNo :
    (convertAbandonmentAnimalToPet
      { sampleRecordFull with desertionNo := none } 0 2024).isOk = false := by
  decide

/-- Claim C1 (amended): the converter is total over records whose
unguardedly-dereferenced fields are present — `desertionNo`, `age`,
`sexCd`, `processState` present, and the breed source
`kindNm || kindFullNm` defined; those fields may be empty strings and
every other field may be absent. -/
theorem convert_total_on_present_fields :
    ∀ (animal : AbandonmentAnimalItem) (index currentYear : Nat),
      animal.desertionNo.isSome = true →
      animal.age.isSome = true →
      animal.sexCd.isSome = true →
      animal.processState.isSome = true →
      (jsOr animal.kindNm animal.kindFullNm).isSome = true →
      (convertAbandonmentAnimalToPet animal index currentYear).isOk = true := by
  intro animal index currentYear hdn hage hsex hps hkind
  obtain ⟨dn, hdn⟩ := Option.isSome_iff_exists.mp hdn
  obtain ⟨ag, hage⟩ := Option.isSome_iff_exists.mp hage
  obtain ⟨sx, hsex⟩ := Option.isSome_iff_exists.mp hsex
  obtain ⟨ps, hps⟩ := Option.isSome_iff_exists.mp hps
  obtain ⟨kn, hkind⟩ := Option.isSome_iff_exists.mp hkind
  rw [convertAbandonmentAnimalToPet, hdn, hage, hsex, hps, hkind]
  rfl

/-- Witness for C1 (amended): the fully populated sample record
converts successfully. -/
theorem convert_total_on_present_fields_witness :
    (convertAbandonmentAnimalToPet sampleRecordFull 0 2024).isOk = true :=
  convert_total_on_present_fields sampleRecordFull 0 2024 (by decide)
    (by decide) (by decide) (by decide) (by decide)

/-- Claim C3 counterexample: an application-level upstream error (HTTP
200 with `success: false`) makes the pet-detail query resolve
successfully with `null` — not an error state. -/
theorem usePetDetail_swallows_upstream_error :
    usePetDetailQueryFn "448528202500936"
      ⟨true, false, some "EXTERNAL_SERVICE_ERROR", ⟨[], 0, 1, 1⟩⟩ 2024 =
      .ok none := by
  decide

/-- Claim C3 (amended): a failed fetch or non-success envelope surfaces
as an error for the queries that use `fetchFromInternalAPI` directly
(featured and full-listing paths shown), but the pet-detail query
converts every such failure into a successful `null` result. -/
theorem upstream_error_surfacing :
    ∀ (env : ApiEnvelope AnimalsPage) (currentYear : Nat),
      (env.httpOk = false ∨ env.success = false) →
        (fetchFromInternalAPI env).isOk = false ∧
        (useFeaturedPetsQueryFn env currentYear).isOk = false ∧
        (∀ pageParam,
          (useAllPetsQueryFn env pageParam currentYear).isOk = false) ∧
        (∀ d, usePetDetailQueryFn d env currentYear = .ok none) := by
  intro env y h
  obtain ⟨msg, hmsg⟩ := fetchFromInternalAPI_eq_error env h
  refine ⟨by rw [hmsg]; rfl, ?_, ?_, ?_⟩
  · rw [useFeaturedPetsQueryFn]
    simp only [getAbandonmentAnimals, hmsg, except_error_bind]
    rfl
  · intro pageParam
    rw [useAllPetsQueryFn]
    simp only [getAbandonmentAnimals, hmsg, except_error_bind]
    rfl
  · intro d
    rw [usePetDetailQueryFn]
    simp [getAnimalDetail, getAbandonmentAnimals, hmsg]

/-- Witness for C3 (amended): a concrete non-success envelope errors the
featured query and resolves the detail query with null. -/
theorem upstream_error_surfacing_witness :
    (useFeaturedPetsQueryFn ⟨true, false, some "ERR", ⟨[], 0, 1, 1⟩⟩
      2024).isOk = false ∧
    usePetDetailQueryFn "1" ⟨true, false, some "ERR", ⟨[], 0, 1, 1⟩⟩ 2024 =
      .ok none :=
  ⟨(upstream_error_surfacing ⟨true, false, some "ERR", ⟨[], 0, 1, 1⟩⟩ 2024
      (Or.inr rfl)).2.1,
    (upstream_error_surfacing ⟨true, false, some "ERR", ⟨[], 0, 1, 1⟩⟩ 2024
      (Or.inr rfl)).2.2.2 "1"⟩

/-- Claim C5 counterexample: a separator-only color string yields the
empty list, not the single-element `"미상"` placeholder, refuting
"parseColors always returns a non-empty list". -/
theorem parseColors_separator_only_is_empty :
    parseColors (some "&") = [] ∧ parseColors (some "&") ≠ ["미상"] := by
  decide

/-- Claim C5 (amended): the `"미상"` placeholder is produced exactly for
absent or empty input; every returned color string is non-empty; but for
non-empty input whose segments all trim to empty (separator-only or
whitespace-only input) the result is the empty list. -/
theorem parseColors_characterization :
    ∀ s : String,
      parseColors none = ["미상"] ∧
      parseColors (some "") = ["미상"] ∧
      (∀ x ∈ parseColors (some s), x ≠ "") ∧
      (parseColors (some s) = [] ↔
        s ≠ "" ∧
          ∀ seg ∈ jsSplitChars (fun ch => ch = '&' || ch = '+' || ch = ',')
            s.toList, jsTrim (String.mk seg) = "") := by
  intro s
  refine ⟨rfl, rfl, ?_, ?_⟩
  · intro x hx
    by_cases hs : s = ""
    · rw [hs] at hx
      simp only [parseColors, if_pos rfl] at hx
      simp at hx
      subst hx
      decide
    · simp only [parseColors, if_neg hs, List.mem_filter] at hx
      intro hx0
      rw [hx0] at hx
      exact absurd hx.2 (by decide)
  · by_cases hs : s = ""
    · subst hs
      constructor
      · intro h; exact absurd h (by decide)
      · intro h; exact absurd rfl h.1
    · simp only [parseColors, if_neg hs, List.filter_eq_nil_iff,
        List.mem_map, decide_eq_true_eq]
      constructor
      · intro h
        refine ⟨hs, fun seg hseg => ?_⟩
        have := h (jsTrim (String.mk seg)) ⟨String.mk seg, ⟨seg, hseg, rfl⟩, rfl⟩
        have hlen : (jsTrim (String.mk seg)).length = 0 := by omega
        cases he : jsTrim (String.mk seg) with
        | mk l =>
          rw [he] at hlen
          simp [String.length] at hlen
          simp [hlen]
      · rintro ⟨-, h⟩ x ⟨x0, ⟨seg, hseg, rfl⟩, rfl⟩
        rw [h seg hseg]
        decide

/-- Witness for C5 (amended): concrete evaluations at a real color
string and a separator-only one. -/
theorem parseColors_characterization_witness :
    ("흰색" ≠ "") ∧ (parseColors (some " ") = []) :=
  ⟨(parseColors_characterization "흰색").2.2.1 "흰색" (by decide),
    ((parseColors_characterization " ").2.2.2).mpr ⟨by decide, by decide⟩⟩

/-- Claim C8 counterexample: the same record and index converted at two
clock instants (current year 2024 vs 2025) yield different Pets — the
age computation reads `new Date().getFullYear()`, so the adapter is not
independent of ambient clock state. -/
theorem convert_depends_on_clock :
    convertAbandonmentAnimalToPet sampleRecordFull 0 2024 ≠
      convertAbandonmentAnimalToPet sampleRecordFull 0 2025 := by
  decide

/-- Claim C8 (amended): the converter is a pure function of (record,
index, current clock year), and the clock enters only through the age
parse — whenever two clock years give the same `calculateAgeGroup`
result on the record's age field, the whole converted Pets are equal. -/
theorem convert_deterministic_given_clock_year :
    ∀ (animal : AbandonmentAnimalItem) (index y1 y2 : Nat),
      calculateAgeGroup animal.age y1 = calculateAgeGroup animal.age y2 →
        convertAbandonmentAnimalToPet animal index y1 =
          convertAbandonmentAnimalToPet animal index y2 := by
  intro animal index y1 y2 h
  rw [convertAbandonmentAnimalToPet, convertAbandonmentAnimalToPet, h]

/-- Witness for C8 (amended): a months-shaped age string parses
identically in 2024 and 2030, so the converted Pets coincide. -/
theorem convert_deterministic_given_clock_year_witness :
    convertAbandonmentAnimalToPet sampleRecordMonthsAge 0 2024 =
      convertAbandonmentAnimalToPet sampleRecordMonthsAge 0 2030 :=
  convert_deterministic_given_clock_year sampleRecordMonthsAge 0 2024 2030
    (by decide)

/-- Claim C9 counterexample: with `popfile1` absent and `popfile2`
present, the returned list is non-empty but its first (only) entry is
marked `isMain = false`, refuting "the first entry of a non-empty result
is marked main". -/
theorem createImageInfo_second_only_not_main :
    (createImageInfo none (some "http://img2")).length = 1 ∧
    (createImageInfo none (some "http://img2")).head?.map ImageInfo.isMain =
      some false := by
  decide

/-- Claim C9 (amended): `createImageInfo` returns at most two entries
with pairwise distinct URLs, and whenever `popfile1` is truthy the first
entry is marked main; only when `popfile1` is absent/empty and
`popfile2` present does a non-main entry lead the list. -/
theorem createImageInfo_shape :
    ∀ popfile1 popfile2 : Option String,
      (createImageInfo popfile1 popfile2).length ≤ 2 ∧
      (∀ a ∈ createImageInfo popfile1 popfile2,
        ∀ b ∈ createImageInfo popfile1 popfile2, a ≠ b → a.url ≠ b.url) ∧
      (jsTruthy popfile1 = true →
        (createImageInfo popfile1 popfile2).head?.map ImageInfo.isMain =
          some true) := by
  intro p1 p2
  by_cases h1 : jsTruthy p1 = true <;>
    by_cases h2 : jsTruthy p2 = true ∧ p2 ≠ p1
  · have hlist : createImageInfo p1 p2 =
        [⟨"1", p1.getD "", "반려동물 사진 1", 400, 300, true⟩,
          ⟨"2", p2.getD "", "반려동물 사진 2", 400, 300, false⟩] := by
      simp only [createImageInfo]
      rw [if_pos h1, if_pos h2]
      rfl
    obtain ⟨s1, hs1, -⟩ := (jsTruthy_eq_true_iff p1).mp h1
    obtain ⟨s2, hs2, -⟩ := (jsTruthy_eq_true_iff p2).mp h2.1
    have hne : s1 ≠ s2 := fun hc => h2.2 (by rw [hs1, hs2, hc])
    refine ⟨by rw [hlist]; simp, ?_, fun _ => by rw [hlist]; simp⟩
    intro a ha b hb hab
    rw [hlist] at ha hb
    simp only [List.mem_cons, List.not_mem_nil, or_false] at ha hb
    rcases ha with ha | ha <;> rcases hb with hb | hb <;>
      subst ha <;> subst hb
    · exact absurd rfl hab
    · simp [hs1, hs2, hne]
    · simp [hs1, hs2, Ne.symm hne]
    · exact absurd rfl hab
  · have hlist : createImageInfo p1 p2 =
        [⟨"1", p1.getD "", "반려동물 사진 1", 400, 300, true⟩] := by
      simp only [createImageInfo]
      rw [if_pos h1, if_neg h2]
      rfl
    refine ⟨by rw [hlist]; simp, ?_, fun _ => by rw [hlist]; simp⟩
    intro a ha b hb hab
    rw [hlist] at ha hb
    simp only [List.mem_singleton] at ha hb
    subst ha; subst hb
    exact absurd rfl hab
  · have hlist : createImageInfo p1 p2 =
        [⟨"2", p2.getD "", "반려동물 사진 2", 400, 300, false⟩] := by
      simp only [createImageInfo]
      rw [if_neg h1, if_pos h2]
      rfl
    refine ⟨by rw [hlist]; simp, ?_, fun hc => absurd hc h1⟩
    intro a ha b hb hab
    rw [hlist] at ha hb
    simp only [List.mem_singleton] at ha hb
    subst ha; subst hb
    exact absurd rfl hab
  · have hlist : createImageInfo p1 p2 = [] := by
      simp only [createImageInfo]
      rw [if_neg h1, if_neg h2]
    refine ⟨by rw [hlist]; simp, ?_, fun hc => absurd hc h1⟩
    intro a ha
    rw [hlist] at ha
    simp at ha

/-- Witness for C9 (amended): both source images present and distinct —
two entries, distinct URLs, first one main. -/
theorem createImageInfo_shape_witness :
    (createImageInfo (some "http://a") (some "http://b")).length ≤ 2 ∧
    ("http://a" ≠ "http://b") ∧
    (createImageInfo (some "http://a") (some "http://b")).head?.map
      ImageInfo.isMain = some true :=
  ⟨(createImageInfo_shape (some "http://a") (some "http://b")).1,
    (createImageInfo_shape (some "http://a") (some "http://b")).2.1
      ⟨"1", "http://a", "반려동물 사진 1", 400, 300, true⟩ (by decide)
      ⟨"2", "http://b", "반려동물 사진 2", 400, 300, false⟩ (by decide)
      (by decide),
    (createImageInfo_shape (some "http://a") (some "http://b")).2.2
      (by decide)⟩

end Turi
